import Mathlib

/-!
Verification of the client of the collaborative IDE (src/frontend/src/App.jsx).

The client is a single React component holding its state in useState hooks.
We embed that state as the structure `ClientState`, each socket.emit call as a
constructor of `ClientEvent` carrying exactly the fields of the emitted
payload, each event handler and UI action as a pure function on `ClientState`
(returning emitted events and scheduled timers where the source emits or calls
setTimeout), and reachability of client states as the inductive `Reachable`.
-/

/-- Client-to-server events emitted by the frontend. Each constructor carries
exactly the payload fields of the corresponding socket.emit call in App.jsx;
`typing` is emitted with two positional arguments rather than an object. -/
inductive ClientEvent where
  | join (roomId userName : String)
  | leaveRoom
  | codeChange (roomId code : String)
  | languageChange (roomId language : String)
  | typing (roomId userName : String)
  | compileCode (code roomId language version stdin : String)
  | getAIReview (roomId code : String)
deriving Repr, DecidableEq

/-- Actions the client schedules with setTimeout. -/
inductive TimerAction where
  | clearTyping
  | clearCopySuccess
deriving Repr, DecidableEq

/-- A scheduled setTimeout call: delay in milliseconds and the action run when
it fires. -/
structure Timer where
  delayMs : Nat
  action : TimerAction
deriving Repr, DecidableEq

/-- The client state: one field per useState hook of the App component.
`outPut` is an `Option String` because the JS value stored by setOutput can be
`undefined` (modelled as `none`) when a payload lacks the accessed field. -/
structure ClientState where
  joined : Bool
  roomId : String
  userName : String
  language : String
  code : String
  copySuccess : String
  users : List String
  typing : String
  outPut : Option String
  input : String
  version : String
  isRev : Bool
  isModalOpen : Bool
  modalMessage : String
deriving Repr, DecidableEq

/-- The initial values passed to the useState hooks in App.jsx. -/
def initialState : ClientState where
  joined := false
  roomId := ""
  userName := ""
  language := "cpp"
  code := "// start coding here..."
  copySuccess := ""
  users := []
  typing := ""
  outPut := some ""
  input := ""
  version := "*"
  isRev := false
  isModalOpen := false
  modalMessage := ""

/-- The `run` field of a codeResponse payload; `output := none` models a run
object without an `output` field (JS `undefined`). -/
structure RunField where
  output : Option String
deriving Repr, DecidableEq

/-- A codeResponse payload as delivered to the client; `run := none` models a
payload without a `run` field, on which the handler's `.output` access throws. -/
structure CodeResponsePayload where
  run : Option RunField
deriving Repr, DecidableEq

/-- Modelled from the spec: the backend (not under src/) delivers every
codeResponse payload in the success shape with a `run` object carrying an
`output` string, both for genuine execution results and for synthesized error
text (spec sections 4.4 and 7). -/
def specCodeResponse (o : String) : CodeResponsePayload := ⟨some ⟨some o⟩⟩

/-- Modelled from the spec: the fixed apology string the Review Gateway (not
under src/) broadcasts in an AIReview event when the external service fails. -/
def aiReviewFallback : String := "Unable to review currently please try later"

/-- Handler for socket.on "userJoined": setUsers(users). -/
def onUserJoined (us : List String) (s : ClientState) : ClientState :=
  { s with users := us }

/-- Handler for socket.on "codeUpdate": setCode(newCode). -/
def onCodeUpdate (newCode : String) (s : ClientState) : ClientState :=
  { s with code := newCode }

/-- The typing indicator text: user.slice(0, 10) + " is typing...". -/
def typingMessage (user : String) : String :=
  String.mk (user.data.take 10) ++ " is typing..."

/-- Handler for socket.on "userTyping": setTyping of the truncated message and
setTimeout(() => setTyping(""), 2000). -/
def onUserTyping (user : String) (s : ClientState) : ClientState × List Timer :=
  ({ s with typing := typingMessage user }, [⟨2000, TimerAction.clearTyping⟩])

/-- Handler for socket.on "languageUpdate": setLanguage(newLanguage). -/
def onLanguageUpdate (newLanguage : String) (s : ClientState) : ClientState :=
  { s with language := newLanguage }

/-- Handler for socket.on "codeResponse": setOutput(response.run.output).
If the payload has no `run` field the field access throws, which we model as
`none`; otherwise the stored output is exactly the (possibly absent) `output`
field of `run`. -/
def onCodeResponse (resp : CodeResponsePayload) (s : ClientState) :
    Option ClientState :=
  resp.run.map fun r => { s with outPut := r.output }

/-- Handler for socket.on "AIReview": setModalMessage(message),
setIsModalOpen(true), setIsRev(false). -/
def onAIReview (message : String) (s : ClientState) : ClientState :=
  { s with modalMessage := message, isModalOpen := true, isRev := false }

/-- Firing a scheduled timer: the setTimeout callbacks in App.jsx. -/
def applyTimer (a : TimerAction) (s : ClientState) : ClientState :=
  match a with
  | TimerAction.clearTyping => { s with typing := "" }
  | TimerAction.clearCopySuccess => { s with copySuccess := "" }

/-- The JoinRoom click handler: if (roomId && userName) then emit "join" with
payload containing roomId and userName and setJoined(true); otherwise nothing.
On JS strings the truthiness test is exactly non-emptiness. -/
def JoinRoom (s : ClientState) : ClientState × List ClientEvent :=
  if s.roomId ≠ "" ∧ s.userName ≠ "" then
    ({ s with joined := true }, [ClientEvent.join s.roomId s.userName])
  else
    (s, [])

/-- The leaveRoom click handler: emit "leaveRoom" with no payload, then reset
joined, roomId, userName, code and language. -/
def leaveRoom (s : ClientState) : ClientState × List ClientEvent :=
  ({ s with joined := false, roomId := "", userName := "",
            code := "//start coding here...", language := "cpp" },
   [ClientEvent.leaveRoom])

/-- The beforeunload handler: emit "leaveRoom" with no payload; no state
change. -/
def handleBeforeUnload (s : ClientState) : ClientState × List ClientEvent :=
  (s, [ClientEvent.leaveRoom])

/-- The numeric part of generateRoomId: Math.floor(100000 + r * 900000) where
r is the value returned by Math.random(), a draw from [0, 1). -/
def generateRoomIdNum (r : ℚ) : ℤ :=
  ⌊(100000 : ℚ) + r * 900000⌋

/-- generateRoomId: Math.floor(100000 + Math.random() * 900000).toString(). -/
def generateRoomId (r : ℚ) : String :=
  toString (generateRoomIdNum r)

/-- The Create Room click handler: setRoomId(generateRoomId()). -/
def handleCreateRoom (r : ℚ) (s : ClientState) : ClientState :=
  { s with roomId := generateRoomId r }

/-- The Copy Id click handler: setCopySuccess("Copied!") and a 2000 ms timer
clearing it. (The clipboard write is outside the client state.) -/
def copyRoomId (s : ClientState) : ClientState × List Timer :=
  ({ s with copySuccess := "Copied!" }, [⟨2000, TimerAction.clearCopySuccess⟩])

/-- The editor onChange handler handleCodeChange: setCode(newCode), emit
"codeChange" with roomId and the new code, emit "typing" with roomId and
userName as two positional arguments. -/
def handleCodeChange (newCode : String) (s : ClientState) :
    ClientState × List ClientEvent :=
  ({ s with code := newCode },
   [ClientEvent.codeChange s.roomId newCode,
    ClientEvent.typing s.roomId s.userName])

/-- The language select onChange handler: setLanguage(newLanguage) and emit
"languageChange" with roomId and the new language. -/
def handleLanguageChange (newLanguage : String) (s : ClientState) :
    ClientState × List ClientEvent :=
  ({ s with language := newLanguage },
   [ClientEvent.languageChange s.roomId newLanguage])

/-- The Execute click handler runCode: emit "compileCode" with code, roomId,
language, version and stdin taken from the current state; no state change. -/
def runCode (s : ClientState) : ClientState × List ClientEvent :=
  (s, [ClientEvent.compileCode s.code s.roomId s.language s.version s.input])

/-- The AI Review click handler AIreview: setIsRev(true) and emit
"getAIReview" with roomId and code. -/
def AIreview (s : ClientState) : ClientState × List ClientEvent :=
  ({ s with isRev := true }, [ClientEvent.getAIReview s.roomId s.code])

/-- The modal Close click handler: setIsModalOpen(false), setModalMessage(""). -/
def closeModal (s : ClientState) : ClientState :=
  { s with isModalOpen := false, modalMessage := "" }

/-- The Room ID input onChange handler: setRoomId(e.target.value). -/
def setRoomIdInput (v : String) (s : ClientState) : ClientState :=
  { s with roomId := v }

/-- The Your Name input onChange handler: setUserName(e.target.value). -/
def setUserNameInput (v : String) (s : ClientState) : ClientState :=
  { s with userName := v }

/-- The stdin textarea onChange handler: setInput(e.target.value). -/
def setStdinInput (v : String) (s : ClientState) : ClientState :=
  { s with input := v }

/-- One client transition: any UI action, incoming socket event or timer
firing of App.jsx. -/
inductive Step : ClientState → ClientState → Prop where
  | joinRoom (s : ClientState) : Step s (JoinRoom s).1
  | leave (s : ClientState) : Step s (leaveRoom s).1
  | beforeUnload (s : ClientState) : Step s (handleBeforeUnload s).1
  | createRoom (r : ℚ) (s : ClientState) : Step s (handleCreateRoom r s)
  | copyId (s : ClientState) : Step s (copyRoomId s).1
  | codeChange (c : String) (s : ClientState) : Step s (handleCodeChange c s).1
  | languageChange (l : String) (s : ClientState) :
      Step s (handleLanguageChange l s).1
  | run (s : ClientState) : Step s (runCode s).1
  | aiReviewReq (s : ClientState) : Step s (AIreview s).1
  | modalClose (s : ClientState) : Step s (closeModal s)
  | userJoined (us : List String) (s : ClientState) : Step s (onUserJoined us s)
  | codeUpdate (c : String) (s : ClientState) : Step s (onCodeUpdate c s)
  | userTyping (u : String) (s : ClientState) : Step s (onUserTyping u s).1
  | languageUpdate (l : String) (s : ClientState) :
      Step s (onLanguageUpdate l s)
  | codeResponse (resp : CodeResponsePayload) (s s' : ClientState) :
      onCodeResponse resp s = some s' → Step s s'
  | aiReviewResp (m : String) (s : ClientState) : Step s (onAIReview m s)
  | timer (a : TimerAction) (s : ClientState) : Step s (applyTimer a s)
  | roomIdInput (v : String) (s : ClientState) : Step s (setRoomIdInput v s)
  | userNameInput (v : String) (s : ClientState) : Step s (setUserNameInput v s)
  | stdinInput (v : String) (s : ClientState) : Step s (setStdinInput v s)

/-- Client states reachable from the initial state by client transitions. -/
inductive Reachable : ClientState → Prop where
  | init : Reachable initialState
  | step {s s' : ClientState} : Reachable s → Step s s' → Reachable s'

/-- No client transition writes the version field (setVersion is never
called in App.jsx). -/
theorem Step.version_eq {s s' : ClientState} (h : Step s s') :
    s'.version = s.version := by
  cases h with
  | joinRoom s => simp only [JoinRoom]; split <;> rfl
  | leave s => rfl
  | beforeUnload s => rfl
  | createRoom r s => rfl
  | copyId s => rfl
  | codeChange c s => rfl
  | languageChange l s => rfl
  | run s => rfl
  | aiReviewReq s => rfl
  | modalClose s => rfl
  | userJoined us s => rfl
  | codeUpdate c s => rfl
  | userTyping u s => rfl
  | languageUpdate l s => rfl
  | codeResponse resp s s' hcr =>
      simp only [onCodeResponse] at hcr
      cases hr : resp.run with
      | none => rw [hr] at hcr; simp at hcr
      | some r =>
          rw [hr] at hcr
          simp only [Option.map_some', Option.some.injEq] at hcr
          rw [← hcr]
  | aiReviewResp m s => rfl
  | timer a s => cases a <;> rfl
  | roomIdInput v s => rfl
  | userNameInput v s => rfl
  | stdinInput v s => rfl

/-- In every reachable client state the version field is the literal "*". -/
theorem reachable_version {s : ClientState} (h : Reachable s) :
    s.version = "*" := by
  induction h with
  | init => rfl
  | step _ hstep ih => rw [Step.version_eq hstep]; exact ih

/-- C1: If roomId or userName is empty, JoinRoom emits nothing and leaves the
whole client state (including the joined flag) unchanged; when both are
non-empty it emits exactly one join event with payload roomId, userName and
sets the joined flag. -/
theorem join_guard (s : ClientState) :
    ((s.roomId = "" ∨ s.userName = "") → JoinRoom s = (s, [])) ∧
    (s.roomId ≠ "" → s.userName ≠ "" →
      JoinRoom s =
        ({ s with joined := true }, [ClientEvent.join s.roomId s.userName])) := by
  constructor
  · intro h
    rw [JoinRoom, if_neg]
    tauto
  · intro h1 h2
    rw [JoinRoom, if_pos ⟨h1, h2⟩]

/-- Witness for C1: a concrete dropped join (empty userName) and a concrete
successful join. -/
theorem join_guard_witness :
    JoinRoom { initialState with roomId := "42" } =
      ({ initialState with roomId := "42" }, []) ∧
    JoinRoom { initialState with roomId := "42", userName := "ada" } =
      ({ initialState with roomId := "42", userName := "ada", joined := true },
       [ClientEvent.join "42" "ada"]) :=
  ⟨(join_guard _).1 (Or.inr rfl),
   (join_guard _).2 (by decide) (by decide)⟩

/-- C2: For every codeResponse payload of the shape the spec permits (success
or synthesized error, both carrying run.output as a string), the handler's
access to run.output is well-defined (the handler returns some state, no
throw) and the stored output is exactly that string. -/
theorem codeResponse_output (o : String) (s : ClientState) :
    onCodeResponse (specCodeResponse o) s = some { s with outPut := some o } :=
  rfl

/-- C3: Each client-to-server emit carries exactly the payload of the spec's
event table, with every field taken from the client's current state: join
carries roomId and userName; leaveRoom carries nothing; codeChange carries
roomId and the new code; languageChange carries roomId and the new language;
typing carries roomId and userName positionally; compileCode carries code,
roomId, language, version and stdin; getAIReview carries roomId and code.
The ClientEvent constructors have exactly these fields, so no payload has
extra or missing fields. -/
theorem emitted_payloads (s : ClientState) (newCode newLanguage : String) :
    (s.roomId ≠ "" → s.userName ≠ "" →
      (JoinRoom s).2 = [ClientEvent.join s.roomId s.userName]) ∧
    (leaveRoom s).2 = [ClientEvent.leaveRoom] ∧
    (handleBeforeUnload s).2 = [ClientEvent.leaveRoom] ∧
    (handleCodeChange newCode s).2 =
      [ClientEvent.codeChange s.roomId newCode,
       ClientEvent.typing s.roomId s.userName] ∧
    (handleLanguageChange newLanguage s).2 =
      [ClientEvent.languageChange s.roomId newLanguage] ∧
    (runCode s).2 =
      [ClientEvent.compileCode s.code s.roomId s.language s.version s.input] ∧
    (AIreview s).2 = [ClientEvent.getAIReview s.roomId s.code] := by
  refine ⟨fun h1 h2 => ?_, rfl, rfl, rfl, rfl, rfl, rfl⟩
  rw [JoinRoom, if_pos ⟨h1, h2⟩]

/-- Witness for C3: the join payload at a concrete joinable state. -/
theorem emitted_payloads_witness :
    (JoinRoom { initialState with roomId := "7", userName := "bo" }).2 =
      [ClientEvent.join "7" "bo"] :=
  (emitted_payloads { initialState with roomId := "7", userName := "bo" }
    "x" "y").1 (by decide) (by decide)

/-- C4: userJoined and codeUpdate wholly replace local state: after
onUserJoined the user list is exactly the received list (previous entries
discarded), and after onCodeUpdate the code is exactly the received string;
neither handler touches any other field. -/
theorem sync_replaces_state (us : List String) (c : String) (s : ClientState) :
    onUserJoined us s = { s with users := us } ∧
    (onUserJoined us s).users = us ∧
    onCodeUpdate c s = { s with code := c } ∧
    (onCodeUpdate c s).code = c :=
  ⟨rfl, rfl, rfl, rfl⟩

/-- C5: On every userTyping event the client sets the typing indicator and
schedules exactly one timer, 2000 ms (2 seconds) later, whose action resets
the indicator to the empty string; the handler touches no other stored
state. -/
theorem typing_expiry (u : String) (s : ClientState) :
    (onUserTyping u s).1 = { s with typing := typingMessage u } ∧
    (onUserTyping u s).2 = [⟨2000, TimerAction.clearTyping⟩] ∧
    (∀ t : ClientState,
      applyTimer TimerAction.clearTyping t = { t with typing := "" }) :=
  ⟨rfl, rfl, fun _ => rfl⟩

/-- C6: On every AIReview event the client stores the received text verbatim
as the modal message, opens the modal, and clears the in-review flag; in
particular the fallback string is shown exactly. -/
theorem aiReview_display (m : String) (s : ClientState) :
    onAIReview m s =
      { s with modalMessage := m, isModalOpen := true, isRev := false } ∧
    (onAIReview aiReviewFallback s).modalMessage =
      "Unable to review currently please try later" :=
  ⟨rfl, rfl⟩

/-- C7: The beforeunload handler emits exactly the same event list as the
explicit Leave Room action — a single leaveRoom event with no payload — so the
server-visible effect of the two paths is identical. -/
theorem unload_leave_equiv (s : ClientState) :
    (handleBeforeUnload s).2 = (leaveRoom s).2 ∧
    (handleBeforeUnload s).2 = [ClientEvent.leaveRoom] :=
  ⟨rfl, rfl⟩

/-- C8: In every reachable client state the version field equals the literal
"*" (it is initialized to "*" and no transition updates it), so every emitted
compileCode payload carries version "*". -/
theorem compile_version_star {s : ClientState} (h : Reachable s) :
    s.version = "*" ∧
    (runCode s).2 =
      [ClientEvent.compileCode s.code s.roomId s.language "*" s.input] := by
  have hv := reachable_version h
  exact ⟨hv, by rw [runCode, hv]⟩

/-- Witness for C8: the initial state is reachable and its compileCode payload
carries version "*". -/
theorem compile_version_star_witness :
    initialState.version = "*" ∧
    (runCode initialState).2 =
      [ClientEvent.compileCode initialState.code initialState.roomId
        initialState.language "*" initialState.input] :=
  compile_version_star Reachable.init

/-- C9: The typing indicator shows the first 10 characters of the user name
(all of it when it has at most 10 characters) followed by " is typing...". -/
theorem typing_truncation (u : String) (s : ClientState) :
    (onUserTyping u s).1.typing =
      String.mk (u.data.take 10) ++ " is typing..." ∧
    (u.length ≤ 10 →
      (onUserTyping u s).1.typing = u ++ " is typing...") := by
  refine ⟨rfl, fun h => ?_⟩
  obtain ⟨l⟩ := u
  show String.mk (l.take 10) ++ " is typing..." = String.mk l ++ " is typing..."
  have hl : l.length ≤ 10 := h
  rw [List.take_of_length_le hl]

/-- Witness for C9: a short name is shown whole. -/
theorem typing_truncation_witness :
    (onUserTyping "ada" initialState).1.typing = "ada" ++ " is typing..." :=
  (typing_truncation "ada" initialState).2 (by decide)

/-- C10: For every r in [0, 1), generateRoomId returns the decimal
representation of the integer floor(100000 + r * 900000), which lies between
100000 and 999999 inclusive (hence a six-digit decimal string). -/
theorem roomId_range (r : ℚ) (h0 : 0 ≤ r) (h1 : r < 1) :
    generateRoomId r = toString (generateRoomIdNum r) ∧
    100000 ≤ generateRoomIdNum r ∧ generateRoomIdNum r ≤ 999999 := by
  refine ⟨rfl, ?_, ?_⟩
  · rw [generateRoomIdNum, Int.le_floor]
    push_cast
    nlinarith
  · have hlt : generateRoomIdNum r < 1000000 := by
      rw [generateRoomIdNum, Int.floor_lt]
      push_cast
      nlinarith
    omega

/-- Witness for C10: the draw r = 1/2 yields 550000, inside the range. -/
theorem roomId_range_witness :
    generateRoomId (1/2) = toString (generateRoomIdNum (1/2)) ∧
    100000 ≤ generateRoomIdNum (1/2) ∧ generateRoomIdNum (1/2) ≤ 999999 :=
  roomId_range (1/2) (by norm_num) (by norm_num)
